import Mathlib

/-!
Verification development for the LiteralCloudService repository
(`Clouds/CloudSource.py` and `get_sources.py`).

The Python code is shallowly embedded: `datetime.datetime` values become a
record of calendar fields at microsecond resolution (the calendar itself is
abstracted into a linear day number, which is faithful for every operation the
code performs: field replacement, comparison as instants, and adding whole
days); fallible Python operations become `Except PyError` computations; the
filesystem and network are modelled by explicit environment records listing
the outcome of each external call.
-/

namespace LCS

/-- A naive `datetime.datetime` value.  Python's Gregorian date is abstracted
into a linear `day` counter; `hour`/`minute`/`second`/`microsecond` are the
time-of-day fields.  Naive datetimes compare as instants, which under this
abstraction is the lexicographic order on the five fields, and
`timedelta(days=1)` increments `day` leaving the time fields unchanged. -/
structure Datetime where
  day : Nat
  hour : Nat
  minute : Nat
  second : Nat
  microsecond : Nat
deriving DecidableEq, Repr

/-- The instant denoted by a datetime, in microseconds.  For field values in
their Python-valid ranges this is an order isomorphism onto the comparison
order of `datetime.datetime`. -/
def dtKey (d : Datetime) : Nat :=
  (((d.day * 24 + d.hour) * 60 + d.minute) * 60 + d.second) * 1000000 + d.microsecond

/-- Strict comparison `a < b` on datetimes, as Python compares naive datetimes. -/
def dtLtB (a b : Datetime) : Bool := decide (dtKey a < dtKey b)

/-- Non-strict comparison `a <= b` on datetimes. -/
def dtLeB (a b : Datetime) : Bool := decide (dtKey a ≤ dtKey b)

/-- Addition `d + datetime.timedelta(days=n)`. -/
def dtAddDays (d : Datetime) (n : Nat) : Datetime := { d with day := d.day + n }

/-- The pure field replacement underlying
`d.replace(hour=h, minute=m, second=s)`: the `microsecond` field (and the
date) are left unchanged, exactly as in Python. -/
def replaceTime (d : Datetime) (h m s : Nat) : Datetime :=
  { d with hour := h, minute := m, second := s }

/-- Field validity as enforced by the `datetime` constructors: every value
produced by `datetime.datetime.utcnow()` satisfies this. -/
def Datetime.Valid (d : Datetime) : Prop :=
  d.hour < 24 ∧ d.minute < 60 ∧ d.second < 60 ∧ d.microsecond < 1000000

instance (d : Datetime) : Decidable d.Valid := by
  unfold Datetime.Valid; infer_instance

/-- Python exceptions relevant to this code base.  All of these are
subclasses of `Exception` (and therefore caught by a bare `except Exception`
clause); `KeyboardInterrupt` derives from `BaseException`, not `Exception`,
and is modelled separately in the scheduler loop. -/
inductive PyError where
  | valueError
  | httpError
  | contentTooShortError
  | unidentifiedImageError
  | fileNotFoundError
  | systemError
  | osError
  | isADirectoryError
  | fileExistsError
  | attributeError
  | indexError
  | otherError
deriving DecidableEq, Repr

deriving instance DecidableEq for Except

/-- Helper for `pySplit`: walks the character list accumulating the current
field (in reverse). -/
def pySplitAux (sep : Char) : List Char → List Char → List String
  | [], acc => [String.mk acc.reverse]
  | c :: cs, acc =>
      if c = sep then String.mk acc.reverse :: pySplitAux sep cs []
      else pySplitAux sep cs (c :: acc)

/-- Python `s.split(sep)` for a one-character separator: every occurrence of
the separator ends a field, and `"".split(sep) == [""]`. -/
def pySplit (sep : Char) (s : String) : List String :=
  pySplitAux sep s.data []

/-- Python `int(s)` on the plain decimal strings this program feeds it
(the `"HH"`/`"MM"` halves of a time string): the value of the digits, or
`ValueError` when the string is empty or holds a non-digit. -/
def pyInt (s : String) : Except PyError Nat :=
  if s.data ≠ [] ∧ s.data.all (fun c => c.isDigit) then
    Except.ok (s.data.foldl (fun n c => n * 10 + (c.toNat - 48)) 0)
  else Except.error PyError.valueError

/-- Python list indexing `l[i]`: raises `IndexError` out of range. -/
def listGet (l : List String) (i : Nat) : Except PyError String :=
  match l.get? i with
  | some x => Except.ok x
  | none => Except.error PyError.indexError

/-- Model of `CloudSource.set_target_time` lines 177–178:
`hour = int(self.time.split(":")[0])`, `minute = int(self.time.split(":")[1])`. -/
def parseTimePair (t : String) : Except PyError (Nat × Nat) := do
  let h ← pyInt (← listGet (pySplit ':' t) 0)
  let m ← pyInt (← listGet (pySplit ':' t) 1)
  return (h, m)

/-- Model of `d.replace(hour=h, minute=m, second=s)`: `replace` validates the supplied
fields (raising `ValueError` out of range) and leaves `microsecond`
untouched. -/
def dtReplace (d : Datetime) (h m s : Nat) : Except PyError Datetime :=
  if h ≤ 23 ∧ m ≤ 59 ∧ s ≤ 59 then Except.ok (replaceTime d h m s)
  else Except.error PyError.valueError

/-- One `CloudSource` object (`CloudSource.__init__`, lines 29–54).
`__init__` never sets `target_time`; the attribute exists only after
`set_target_time` ran, hence the `Option`. -/
structure CloudSource where
  name : String
  url : String
  crop_coords : Nat × Nat × Nat × Nat
  time : String
  target_time : Option Datetime := none
deriving DecidableEq, Repr

/-- Python `t.replace(":", "")`: removes every colon. -/
def removeColons (t : String) : String :=
  String.mk (t.data.filter (fun c => c ≠ ':'))

/-- Model of `CloudSource.__str__` (line 57):
`(self.time.replace(":", "")) + "-" + self.name`. -/
def CloudSource.str (s : CloudSource) : String :=
  removeColons s.time ++ "-" ++ s.name

/-- Model of `CloudSource.set_target_time` (lines 158–183): parse hour and minute from
`self.time`, combine with `now` via `now.replace(hour=hour, minute=minute,
second=0)` (which keeps `now`'s microsecond), add one day if the result is
strictly before `now`, store the result in `self.target_time` and return it. -/
def set_target_time (src : CloudSource) (now : Datetime) :
    Except PyError (Datetime × CloudSource) := do
  let (hour, minute) ← parseTimePair src.time
  let t0 ← dtReplace now hour minute 0
  let target := if dtLtB t0 now then dtAddDays t0 1 else t0
  return (target, { src with target_time := some target })

/-- One entry of the `CloudSources` array in the JSON config file. -/
structure SourceDef where
  name : String
  url : String
  crop_coords : Nat × Nat × Nat × Nat
  time_list : List String
deriving DecidableEq, Repr

/-- Model of `get_cloud_sources` (lines 185–220): one `CloudSource` per
(definition, time) pair, in enumeration order.  None of them has
`target_time` set, since `__init__` never assigns that attribute. -/
def get_cloud_sources (defs : List SourceDef) : List CloudSource :=
  defs.flatMap (fun d =>
    d.time_list.map (fun t =>
      { name := d.name, url := d.url, crop_coords := d.crop_coords,
        time := t, target_time := none }))

/-- Outcome of one `os.remove` call.  `os.remove` failures are `OSError`
subclasses, and `delete_file`'s handlers (`IsADirectoryError`, then
`OSError`) cover all of them. -/
inductive RemoveOutcome where
  | ok
  | isADirectoryError
  | otherOSError
deriving DecidableEq, Repr

/-- Model of `delete_file` (lines 222–253).  Input: whether a file currently exists at
the path, and what `os.remove` would do.  Output: (does a file still exist at
the path, the returned boolean).  Every error is caught inside `delete_file`;
it always returns. -/
def delete_file (exists0 : Bool) (out : RemoveOutcome) : Bool × Bool :=
  if exists0 then
    match out with
    | RemoveOutcome.ok => (false, true)
    | RemoveOutcome.isADirectoryError => (true, false)
    | RemoveOutcome.otherOSError => (true, false)
  else (false, true)

/-- Model of `get_image` line 88 with the default `directory="images/current_downloads"`:
`image_name = f"{directory}{str(self)}.png"` — note there is no separator
between the directory string and the filename stem. -/
def defaultImagePath (src : CloudSource) : String :=
  "images/current_downloads" ++ CloudSource.str src ++ ".png"

/-- Environment for one `get_image` call: the behaviour of the filesystem and
of the network during that call. -/
structure GIEnv where
  /-- Is there already a file at the target path when `get_image` starts? -/
  fileExists0 : Bool
  /-- Outcome of `os.remove` at the initial `delete_file(image_name)`. -/
  remove1 : RemoveOutcome
  /-- Exception raised by `wget.download`, if any (`none` = the download
  succeeded and wrote the file). -/
  downloadError : Option PyError
  /-- When the download fails: did it leave a truncated file at the path? -/
  downloadWroteFile : Bool
  /-- Exception raised by the `Image.open`/`crop`/`save` block, if any. -/
  cropError : Option PyError
  /-- Outcome of `os.remove` at the `delete_file` of a failure handler. -/
  remove2 : RemoveOutcome
deriving DecidableEq, Repr

/-- Result of a `get_image` call that returned (rather than raised). -/
structure GIResult where
  /-- The returned boolean. -/
  ret : Bool
  /-- Does a file exist at the target path afterwards? -/
  fileAtPath : Bool
  /-- The path `image_name` the call operated on. -/
  pathUsed : String
deriving DecidableEq, Repr

/-- Does an exception clause of the download `try` (lines 95–118) match?
`except ValueError`, `except urllib.error.HTTPError`,
`except ContentTooShortError`, then `except Exception`: the final catch-all
matches every `Exception` subclass. -/
def dlHandled : PyError → Bool
  | PyError.valueError => true
  | PyError.httpError => true
  | PyError.contentTooShortError => true
  | _ => true

/-- Does an exception clause of the crop `try` (lines 132–155) match?
`except UnidentifiedImageError`, `except FileNotFoundError`,
`except SystemError`, then `except Exception` (catch-all). -/
def cropHandled : PyError → Bool
  | PyError.unidentifiedImageError => true
  | PyError.fileNotFoundError => true
  | PyError.systemError => true
  | _ => true

/-- Model of `CloudSource.get_image` (lines 72–156) with `image_name` the optional
explicit name.  Mirrors the code: compute the path, `delete_file` it, download
(each failure handler calls `delete_file` and returns `False`), then
open/crop/save (each failure handler likewise).  An exception no clause
matches would propagate as `Except.error`. -/
def get_image (src : CloudSource) (imageName : Option String) (env : GIEnv) :
    Except PyError GIResult :=
  let path := imageName.getD (defaultImagePath src)
  let (f1, _r1) := delete_file env.fileExists0 env.remove1
  match env.downloadError with
  | some e =>
      if dlHandled e then
        let (f2, _r2) := delete_file (f1 || env.downloadWroteFile) env.remove2
        Except.ok { ret := false, fileAtPath := f2, pathUsed := path }
      else Except.error e
  | none =>
      -- the download wrote a file at the path
      match env.cropError with
      | some e =>
          if cropHandled e then
            let (f2, _r2) := delete_file true env.remove2
            Except.ok { ret := false, fileAtPath := f2, pathUsed := path }
          else Except.error e
      | none => Except.ok { ret := true, fileAtPath := true, pathUsed := path }

/-- The target-time phase of `get_from_all_sources` (lines 289–294): for each
source **in turn**, `now = datetime.datetime.utcnow()` is read afresh and
`source.set_target_time(now)` is called.  The stream `nows` gives the value
of the `i`-th `utcnow()` read; the `i`-th source is handed `nows (k + i)`. -/
def computeTargets (nows : Nat → Datetime) : List CloudSource → Nat →
    Except PyError (List CloudSource)
  | [], _ => Except.ok []
  | s :: rest, k => do
      let (_, s') ← set_target_time s (nows k)
      let rest' ← computeTargets nows rest (k + 1)
      return s' :: rest'

/-- Key extraction of `cloud_sources.sort(key=lambda x: x.target_time)`:
Python first evaluates the key for every element; accessing `target_time`
on a source that never ran `set_target_time` raises `AttributeError`. -/
def targetKeys : List CloudSource → Except PyError (List (Datetime × CloudSource))
  | [] => Except.ok []
  | s :: rest =>
      match s.target_time with
      | none => Except.error PyError.attributeError
      | some t => (targetKeys rest).map (fun ks => (t, s) :: ks)

/-- Stable insertion of a keyed element: placed before the first strictly
greater key, after equal keys — preserving original order on ties, as
Python's stable sort does. -/
def insertSorted (x : Datetime × CloudSource) :
    List (Datetime × CloudSource) → List (Datetime × CloudSource)
  | [] => [x]
  | y :: ys => if dtLeB x.1 y.1 then x :: y :: ys else y :: insertSorted x ys

/-- Stable sort of keyed elements by ascending key. -/
def sortKeyed : List (Datetime × CloudSource) → List (Datetime × CloudSource)
  | [] => []
  | x :: xs => insertSorted x (sortKeyed xs)

/-- Model of `cloud_sources.sort(key=lambda x: x.target_time)` (line 299 of
`CloudSource.py`, line 50 of `get_sources.py`): compute all keys (raising
`AttributeError` on an unset `target_time`), then stably sort ascending. -/
def sortSources (l : List CloudSource) : Except PyError (List CloudSource) :=
  (targetKeys l).map (fun ks => (sortKeyed ks).map (fun p => p.2))

/-- The schedule phase of the `get_sources.py` script (lines 43–53): load the
sources, then immediately sort them by `target_time` — `set_target_time` is
never called in that script. -/
def getSourcesSchedule (defs : List SourceDef) : Except PyError (List CloudSource) :=
  sortSources (get_cloud_sources defs)

/-- The fetch loop of the scheduler (lines 306–324 of `CloudSource.py`): each
scheduled source in turn has `get_image` invoked on it; an exception escaping
`get_image` would abort the whole loop (propagate through the `do`). -/
def runFetchLoop : List (CloudSource × GIEnv) → Except PyError (List Bool)
  | [] => Except.ok []
  | (s, env) :: rest => do
      let r ← get_image s none env
      let rs ← runFetchLoop rest
      return r.ret :: rs

/-- What happens at one scheduled item of the `get_sources.py` loop
(lines 61–82). -/
inductive StepEvent where
  /-- The wait (if any) completes and `get_image` returns `ok`. -/
  | fetch (ok : Bool)
  /-- A `KeyboardInterrupt` is delivered during `time.sleep`. -/
  | interruptWait
  /-- A `KeyboardInterrupt` is delivered during `get_image`; `except Exception`
  does not catch `BaseException`, so it propagates out of `get_image`. -/
  | interruptFetch
deriving DecidableEq, Repr

/-- The `for` loop of `get_sources.py` (lines 61–82): per successful fetch,
`archive_images` is called once (line 78).  `.inl (outcomes, archives)` means
the loop finished; `.inr (outcomes, archives)` means a `KeyboardInterrupt`
escaped the loop after the recorded prefix. -/
def loopRun : List StepEvent → (List Bool × Nat) ⊕ (List Bool × Nat)
  | [] => Sum.inl ([], 0)
  | StepEvent.interruptWait :: _ => Sum.inr ([], 0)
  | StepEvent.interruptFetch :: _ => Sum.inr ([], 0)
  | StepEvent.fetch ok :: rest =>
      match loopRun rest with
      | Sum.inl (o, a) => Sum.inl (ok :: o, (if ok then 1 else 0) + a)
      | Sum.inr (o, a) => Sum.inr (ok :: o, (if ok then 1 else 0) + a)

/-- The top level of `get_sources.py` (lines 59–92): the loop runs inside
`try: ... except KeyboardInterrupt: log`, and afterwards `archive_images()`
is always called once more (line 91).  Returns the fetch outcomes and the
total number of `archive_images` calls. -/
def scriptRun (events : List StepEvent) : List Bool × Nat :=
  match loopRun events with
  | Sum.inl (o, a) => (o, a + 1)
  | Sum.inr (o, a) => (o, a + 1)

/-- Environment for one `archive_images` call. -/
structure ArchEnv where
  /-- Does the backup directory already exist?  (`os.makedirs` is called
  without `exist_ok`, so it raises `FileExistsError` in that case.) -/
  backupDirExists : Bool
  /-- Does `os.makedirs` fail for another reason (permissions, ...)? -/
  mkdirOtherFail : Bool
  /-- The files currently listed in the `images` directory. -/
  files : List String
  /-- Which individual `shutil.move` calls fail. -/
  moveFail : String → Bool

/-- The `for` loop of `archive_images` (lines 272–273): files are moved in
order; the first failing move raises (aborting the remaining moves).
Returns (files moved, did a move raise). -/
def moveLoop (moveFail : String → Bool) : List String → List String × Bool
  | [] => ([], false)
  | f :: rest =>
      if moveFail f then ([], true)
      else
        let (m, e) := moveLoop moveFail rest
        (f :: m, e)

/-- The `try` body of `archive_images` (lines 270–273): `os.makedirs`
(raising `FileExistsError` when the directory exists), then the move loop.
Returns (files moved, exception raised by the body, if any). -/
def archiveBody (env : ArchEnv) : List String × Option PyError :=
  if env.backupDirExists then ([], some PyError.fileExistsError)
  else if env.mkdirOtherFail then ([], some PyError.osError)
  else
    let (m, failed) := moveLoop env.moveFail env.files
    (m, if failed then some PyError.osError else none)

/-- Model of `archive_images` (lines 255–277): the whole body sits in
`try: ... except Exception: log` — any exception is caught, logged and
swallowed, and the call returns normally having moved whatever it moved. -/
def archive_images (env : ArchEnv) : Except PyError (List String) :=
  match archiveBody env with
  | (m, none) => Except.ok m
  | (m, some _e) => Except.ok m

/-! ## Helper lemmas -/

theorem ok_bind {ε α β : Type} (a : α) (f : α → Except ε β) :
    (Except.ok a : Except ε α) >>= f = f a := rfl

theorem error_bind {ε α β : Type} (e : ε) (f : α → Except ε β) :
    (Except.error e : Except ε α) >>= f = Except.error e := rfl

theorem pure_eq_ok {ε α : Type} (a : α) : (pure a : Except ε α) = Except.ok a := rfl

theorem dlHandled_true (e : PyError) : dlHandled e = true := by
  cases e <;> rfl

theorem cropHandled_true (e : PyError) : cropHandled e = true := by
  cases e <;> rfl

/-- The boolean `get_image` would return, as a function of the environment:
`True` exactly when neither the download nor the crop block raised. -/
def giRet (env : GIEnv) : Bool := env.downloadError.isNone && env.cropError.isNone

/-- Whether a file is left at the target path after `get_image`. -/
def giFile (env : GIEnv) : Bool :=
  match env.downloadError with
  | some _ =>
      (delete_file ((delete_file env.fileExists0 env.remove1).1 || env.downloadWroteFile)
        env.remove2).1
  | none =>
      match env.cropError with
      | some _ => (delete_file true env.remove2).1
      | none => true

/-- Full characterisation of `get_image`: it always returns (never raises),
with the boolean `giRet env`, the file state `giFile env`, and the default
path when no explicit name was supplied. -/
theorem get_image_eq (src : CloudSource) (imageName : Option String) (env : GIEnv) :
    get_image src imageName env =
      Except.ok { ret := giRet env, fileAtPath := giFile env,
                  pathUsed := imageName.getD (defaultImagePath src) } := by
  rcases env with ⟨f0, r1, dl, dw, cr, r2⟩
  cases dl <;> cases cr <;>
    simp [get_image, giRet, giFile, dlHandled_true, cropHandled_true]

theorem delete_file_ok_fst (b : Bool) : (delete_file b RemoveOutcome.ok).1 = false := by
  cases b <;> rfl

theorem moveLoop_all_ok (mf : String → Bool) :
    ∀ l : List String, l.all (fun f => !mf f) = true → moveLoop mf l = (l, false) := by
  intro l
  induction l with
  | nil => intro _; rfl
  | cons f rest ih =>
      intro h
      simp only [List.all_cons, Bool.and_eq_true, Bool.not_eq_true'] at h
      simp [moveLoop, h.1, ih (by simpa using h.2)]

/-! ## Claim theorems -/

/-- C1 (counterexample): for `time = "10:00"` and
`now = day 0, 10:00:00.000001`, the naive combination of `now`'s date with
10:00 (day 0, 10:00:00.000000) is strictly earlier than `now`, yet
`set_target_time` adds no day: the returned target is `now` itself (because
`replace` keeps `now`'s microsecond, the code's comparison sees equality).
This refutes the claim's "exactly one day is added if and only if" clause. -/
theorem C1_counterexample :
    set_target_time ⟨"cam", "u", (0, 0, 0, 0), "10:00", none⟩ ⟨0, 10, 0, 0, 1⟩ =
      Except.ok (⟨0, 10, 0, 0, 1⟩,
        ⟨"cam", "u", (0, 0, 0, 0), "10:00", some ⟨0, 10, 0, 0, 1⟩⟩) ∧
    dtLtB ⟨0, 10, 0, 0, 0⟩ ⟨0, 10, 0, 0, 1⟩ = true ∧
    (⟨0, 10, 0, 0, 1⟩ : Datetime).day = (⟨0, 10, 0, 0, 1⟩ : Datetime).day := by
  exact ⟨by decide, by decide, rfl⟩

/-- C1 (amended): for a valid `now` and a parsed `HH:MM` in range,
`set_target_time` returns and stores a target ≥ `now` with the parsed hour
and minute, zero seconds, and date equal to `now`'s date or `now`'s date plus
one; one day is added exactly when `now.replace(hour=HH, minute=MM,
second=0)` — which retains `now`'s microsecond — is strictly earlier than
`now`. -/
theorem C1_amended (src : CloudSource) (now : Datetime) (hh mm : Nat)
    (hv : now.Valid) (hp : parseTimePair src.time = Except.ok (hh, mm))
    (hhh : hh ≤ 23) (hmm : mm ≤ 59) :
    ∃ tgt src', set_target_time src now = Except.ok (tgt, src') ∧
      src' = { src with target_time := some tgt } ∧
      dtLeB now tgt = true ∧
      tgt.hour = hh ∧ tgt.minute = mm ∧ tgt.second = 0 ∧
      (tgt.day = now.day ∨ tgt.day = now.day + 1) ∧
      (tgt.day = now.day + 1 ↔ dtLtB (replaceTime now hh mm 0) now = true) := by
  obtain ⟨hv1, hv2, hv3, hv4⟩ := hv
  have hrep : dtReplace now hh mm 0 = Except.ok (replaceTime now hh mm 0) := by
    unfold dtReplace
    rw [if_pos ⟨hhh, hmm, by omega⟩]
  cases hlt : dtLtB (replaceTime now hh mm 0) now with
  | false =>
      refine ⟨replaceTime now hh mm 0, _, ?_, rfl, ?_, rfl, rfl, rfl, Or.inl rfl, ?_⟩
      · simp [set_target_time, ok_bind, hp, hrep, hlt]
      · simp only [dtLtB, decide_eq_false_iff_not] at hlt
        simp only [dtLeB, decide_eq_true_eq]
        omega
      · have hd : (replaceTime now hh mm 0).day = now.day := rfl
        rw [hd]
        simp only [Bool.false_eq_true, iff_false]
        omega
  | true =>
      refine ⟨dtAddDays (replaceTime now hh mm 0) 1, _, ?_, rfl, ?_, rfl, rfl, rfl, Or.inr rfl, ?_⟩
      · simp [set_target_time, ok_bind, hp, hrep, hlt]
      · simp only [dtLeB, dtKey, dtAddDays, replaceTime, decide_eq_true_eq]
        omega
      · have hd : (dtAddDays (replaceTime now hh mm 0) 1).day = now.day + 1 := rfl
        rw [hd]
        simp

/-- Witness for C1 (amended): concrete instance at `time = "07:30"`,
`now = day 5, 06:00:00.000123`. -/
theorem C1_amended_witness :
    ∃ tgt src', set_target_time ⟨"cam", "u", (0, 0, 0, 0), "07:30", none⟩
        ⟨5, 6, 0, 0, 123⟩ = Except.ok (tgt, src') ∧
      src' = { (⟨"cam", "u", (0, 0, 0, 0), "07:30", none⟩ : CloudSource) with
                 target_time := some tgt } ∧
      dtLeB ⟨5, 6, 0, 0, 123⟩ tgt = true ∧
      tgt.hour = 7 ∧ tgt.minute = 30 ∧ tgt.second = 0 ∧
      (tgt.day = 5 ∨ tgt.day = 5 + 1) ∧
      (tgt.day = 5 + 1 ↔ dtLtB (replaceTime ⟨5, 6, 0, 0, 123⟩ 7 30 0) ⟨5, 6, 0, 0, 123⟩ = true) :=
  C1_amended ⟨"cam", "u", (0, 0, 0, 0), "07:30", none⟩ ⟨5, 6, 0, 0, 123⟩ 7 30
    (by decide) (by decide) (by decide) (by decide)

/-- C2: in the `get_sources.py` run variant the claim fails — the script
sorts by `target_time` (line 50) without ever calling `set_target_time`, so
the sort's key function reads an attribute `__init__` never set and raises
`AttributeError` for any non-empty schedule.  (After the target-time phase of
`get_from_all_sources`, by contrast, the same sort succeeds.) -/
theorem C2_sort_unset_target :
    getSourcesSchedule [⟨"cam", "u", (0, 0, 0, 0), ["10:00"]⟩] =
      Except.error PyError.attributeError ∧
    (computeTargets (fun _ => ⟨0, 9, 0, 0, 0⟩)
        (get_cloud_sources [⟨"cam", "u", (0, 0, 0, 0), ["10:00"]⟩]) 0).bind sortSources =
      Except.ok [⟨"cam", "u", (0, 0, 0, 0), "10:00", some ⟨0, 10, 0, 0, 0⟩⟩] := by
  exact ⟨by decide, by decide⟩

/-- C3 (counterexample): in `get_from_all_sources`, `now` is read afresh
inside the per-source loop (line 291).  With two sources and two different
`utcnow()` readings the computed targets differ from the targets computed
from a single shared snapshot, refuting the claim that a single shared "now"
is used. -/
theorem C3_counterexample :
    computeTargets (fun i => if i = 0 then ⟨0, 9, 0, 0, 0⟩ else ⟨0, 11, 0, 0, 0⟩)
        [⟨"a", "u", (0, 0, 0, 0), "10:00", none⟩, ⟨"b", "u", (0, 0, 0, 0), "10:00", none⟩] 0 ≠
      computeTargets (fun _ => ⟨0, 9, 0, 0, 0⟩)
        [⟨"a", "u", (0, 0, 0, 0), "10:00", none⟩, ⟨"b", "u", (0, 0, 0, 0), "10:00", none⟩] 0 := by
  decide

/-- C3 (amended): in the batch variant the `i`-th scheduled source's target
instant is computed from the `i`-th fresh `utcnow()` reading — per-source,
not from a single shared snapshot. -/
theorem C3_amended (nows : Nat → Datetime) :
    ∀ (l : List CloudSource) (k : Nat) (res : List CloudSource),
      computeTargets nows l k = Except.ok res →
      ∀ i (hi : i < l.length),
        ∃ pr, set_target_time (l.get ⟨i, hi⟩) (nows (k + i)) = Except.ok pr ∧
          res.get? i = some pr.2 := by
  intro l
  induction l with
  | nil =>
      intro k res _ i hi
      exact absurd hi (by simp)
  | cons s rest ih =>
      intro k res h i hi
      rw [computeTargets] at h
      cases hs : set_target_time s (nows k) with
      | error e => rw [hs] at h; simp [error_bind] at h
      | ok p =>
          rw [hs] at h
          cases hr : computeTargets nows rest (k + 1) with
          | error e => rw [hr] at h; simp [ok_bind, error_bind] at h
          | ok res' =>
              rw [hr] at h
              simp only [ok_bind, pure_eq_ok, Except.ok.injEq] at h
              subst h
              cases i with
              | zero => exact ⟨p, hs, rfl⟩
              | succ j =>
                  have hj : j < rest.length := by
                    simpa [Nat.succ_lt_succ_iff] using hi
                  obtain ⟨pr, hpr, hres⟩ := ih (k + 1) res' hr j hj
                  refine ⟨pr, ?_, ?_⟩
                  · have hk : k + (j + 1) = k + 1 + j := by omega
                    rw [hk]
                    exact hpr
                  · simpa using hres

/-- Witness for C3 (amended): concrete two-source run where the second
source's target comes from the second `utcnow()` reading. -/
theorem C3_amended_witness :
    ∃ pr, set_target_time
        (([⟨"a", "u", (0, 0, 0, 0), "10:00", none⟩,
           ⟨"b", "u", (0, 0, 0, 0), "10:00", none⟩] : List CloudSource).get ⟨1, by decide⟩)
        ((fun i => if i = 0 then (⟨0, 9, 0, 0, 0⟩ : Datetime) else ⟨0, 11, 0, 0, 0⟩) (0 + 1)) =
        Except.ok pr ∧
      ([⟨"a", "u", (0, 0, 0, 0), "10:00", some ⟨0, 10, 0, 0, 0⟩⟩,
        ⟨"b", "u", (0, 0, 0, 0), "10:00", some ⟨1, 10, 0, 0, 0⟩⟩] : List CloudSource).get? 1 =
        some pr.2 :=
  C3_amended (fun i => if i = 0 then ⟨0, 9, 0, 0, 0⟩ else ⟨0, 11, 0, 0, 0⟩)
    [⟨"a", "u", (0, 0, 0, 0), "10:00", none⟩, ⟨"b", "u", (0, 0, 0, 0), "10:00", none⟩]
    0 _ (by decide) 1 (by decide)

/-- C4: with trigger times "10:00" and "09:00" and a shared now of
09:30 on day `D`, the 10:00 source resolves to (day `D`, 10:00), the 09:00
source (being past) to (day `D+1`, 09:00), and the ascending sort by target
instant places the 10:00 source first. -/
theorem C4_schedule_order (D : Nat) :
    (computeTargets (fun _ => ⟨D, 9, 30, 0, 0⟩)
        [⟨"ten", "u1", (1, 2, 3, 4), "10:00", none⟩,
         ⟨"nine", "u2", (5, 6, 7, 8), "09:00", none⟩] 0).bind sortSources =
      Except.ok [⟨"ten", "u1", (1, 2, 3, 4), "10:00", some ⟨D, 10, 0, 0, 0⟩⟩,
                 ⟨"nine", "u2", (5, 6, 7, 8), "09:00", some ⟨D + 1, 9, 0, 0, 0⟩⟩] := by
  have h10 : parseTimePair "10:00" = Except.ok (10, 0) := rfl
  have h9 : parseTimePair "09:00" = Except.ok (9, 0) := rfl
  have hA : dtLtB ⟨D, 10, 0, 0, 0⟩ ⟨D, 9, 30, 0, 0⟩ = false := by
    simp only [dtLtB, dtKey, decide_eq_false_iff_not]
    omega
  have hB : dtLtB ⟨D, 9, 0, 0, 0⟩ ⟨D, 9, 30, 0, 0⟩ = true := by
    simp only [dtLtB, dtKey, decide_eq_true_eq]
    omega
  have hle : dtLeB ⟨D, 10, 0, 0, 0⟩ ⟨D + 1, 9, 0, 0, 0⟩ = true := by
    simp only [dtLeB, dtKey, decide_eq_true_eq]
    omega
  have hsA : set_target_time ⟨"ten", "u1", (1, 2, 3, 4), "10:00", none⟩ ⟨D, 9, 30, 0, 0⟩ =
      Except.ok (⟨D, 10, 0, 0, 0⟩,
        ⟨"ten", "u1", (1, 2, 3, 4), "10:00", some ⟨D, 10, 0, 0, 0⟩⟩) := by
    simp [set_target_time, ok_bind, h10, dtReplace, replaceTime, hA]
  have hsB : set_target_time ⟨"nine", "u2", (5, 6, 7, 8), "09:00", none⟩ ⟨D, 9, 30, 0, 0⟩ =
      Except.ok (⟨D + 1, 9, 0, 0, 0⟩,
        ⟨"nine", "u2", (5, 6, 7, 8), "09:00", some ⟨D + 1, 9, 0, 0, 0⟩⟩) := by
    simp [set_target_time, ok_bind, h9, dtReplace, replaceTime, hB, dtAddDays]
  simp [computeTargets, hsA, hsB, ok_bind, pure_eq_ok, Except.bind, sortSources,
    targetKeys, Except.map, sortKeyed, insertSorted, hle]

/-- C5: `get_image` always returns a boolean (no `PyError` exception
propagates to its caller — each `try` block ends in a catch-all
`except Exception`), the boolean is `False` exactly when the download or the
crop block raised, and the fetch loop therefore always processes every
scheduled item, producing one boolean per item. -/
theorem C5_no_exception :
    (∀ (src : CloudSource) (imageName : Option String) (env : GIEnv),
        ∃ res, get_image src imageName env = Except.ok res ∧
          (res.ret = false ↔ (env.downloadError.isSome ∨ env.cropError.isSome))) ∧
    (∀ items : List (CloudSource × GIEnv),
        ∃ results, runFetchLoop items = Except.ok results ∧
          results.length = items.length) := by
  constructor
  · intro src imageName env
    refine ⟨_, get_image_eq src imageName env, ?_⟩
    rcases env with ⟨f0, r1, dl, dw, cr, r2⟩
    cases dl <;> cases cr <;> simp [giRet]
  · intro items
    induction items with
    | nil => exact ⟨[], rfl, rfl⟩
    | cons item rest ih =>
        obtain ⟨s, env⟩ := item
        obtain ⟨results, hres, hlen⟩ := ih
        refine ⟨giRet env :: results, ?_, by simp [hlen]⟩
        rw [runFetchLoop, get_image_eq, ok_bind, hres, ok_bind]
        rfl

/-- C6 (counterexample): a download failure (`HTTPError`) that leaves a
truncated file, followed by a cleanup `os.remove` that itself fails
(`OSError`): `get_image` returns `False` yet a file remains at the target
path, because the result of the failure handler's `delete_file` is ignored.
This refutes "no partial or corrupt image file remains ... every failure
path deletes whatever was written". -/
theorem C6_counterexample :
    get_image ⟨"cam", "u", (0, 0, 0, 0), "10:00", none⟩ (some "images/x.png")
      ⟨false, RemoveOutcome.ok, some PyError.httpError, true, none,
        RemoveOutcome.otherOSError⟩ =
      Except.ok ⟨false, true, "images/x.png"⟩ := by decide

/-- C6 (amended): every failure path of `get_image` invokes `delete_file` on
the target path before returning `False`; the path holds no file afterwards
provided that deletion's `os.remove` succeeds (its boolean result is not
checked, so a failed deletion leaves the file behind). -/
theorem C6_failure_cleanup (src : CloudSource) (imageName : Option String)
    (env : GIEnv) (res : GIResult)
    (h : get_image src imageName env = Except.ok res) (hf : res.ret = false)
    (hr : env.remove2 = RemoveOutcome.ok) :
    res.fileAtPath = false := by
  rw [get_image_eq] at h
  cases h
  rcases env with ⟨f0, r1, dl, dw, cr, r2⟩
  cases hr
  cases dl with
  | some e => simpa [giFile] using delete_file_ok_fst _
  | none =>
      cases cr with
      | some e => simpa [giFile] using delete_file_ok_fst _
      | none => simp [giRet] at hf

/-- Witness for C6 (amended): concrete failing download with a succeeding
cleanup deletion. -/
theorem C6_failure_cleanup_witness :
    (⟨false, false, "images/x.png"⟩ : GIResult).fileAtPath = false :=
  C6_failure_cleanup ⟨"cam", "u", (0, 0, 0, 0), "10:00", none⟩ (some "images/x.png")
    ⟨false, RemoveOutcome.ok, some PyError.httpError, true, none, RemoveOutcome.ok⟩
    ⟨false, false, "images/x.png"⟩ (by decide) (by decide) (by decide)

/-- Is this step a normal (non-interrupt) one? -/
def isFetchEvent : StepEvent → Bool
  | StepEvent.fetch _ => true
  | _ => false

/-- The fetch outcomes recorded by a run of normal steps. -/
def evOutcomes (l : List StepEvent) : List Bool :=
  l.filterMap (fun e => match e with | StepEvent.fetch b => some b | _ => none)

/-- The number of successful fetches (each triggers one in-loop
`archive_images` call in `get_sources.py`). -/
def evSucc (l : List StepEvent) : Nat :=
  l.countP (fun e => match e with | StepEvent.fetch true => true | _ => false)

theorem evOutcomes_cons_fetch (b : Bool) (l : List StepEvent) :
    evOutcomes (StepEvent.fetch b :: l) = b :: evOutcomes l := by
  simp [evOutcomes]

theorem evSucc_cons_fetch (b : Bool) (l : List StepEvent) :
    evSucc (StepEvent.fetch b :: l) = (if b then 1 else 0) + evSucc l := by
  cases b with
  | false => simp [evSucc, List.countP_cons]
  | true =>
      simp only [evSucc, List.countP_cons, if_true]
      omega

/-- C7: if a `KeyboardInterrupt` arrives during the sleep or the fetch of
some scheduled item, the loop raises out to the script's top-level
`try`/`except KeyboardInterrupt`, no later item is fetched (the result does
not depend on `rest`), the script continues past the handler, and the final
`archive_images()` of line 91 still runs (the `+ 1`). -/
theorem C7_interrupt_handling (pre rest : List StepEvent) (e : StepEvent)
    (hpre : pre.all isFetchEvent = true)
    (he : e = StepEvent.interruptWait ∨ e = StepEvent.interruptFetch) :
    loopRun (pre ++ e :: rest) = Sum.inr (evOutcomes pre, evSucc pre) ∧
    scriptRun (pre ++ e :: rest) = (evOutcomes pre, evSucc pre + 1) := by
  have hloop : loopRun (pre ++ e :: rest) = Sum.inr (evOutcomes pre, evSucc pre) := by
    induction pre with
    | nil =>
        rcases he with rfl | rfl <;> rfl
    | cons x pre' ih =>
        simp only [List.all_cons, Bool.and_eq_true] at hpre
        cases x with
        | fetch b =>
            have h2 := ih hpre.2
            have happ : pre'.append (e :: rest) = pre' ++ e :: rest := rfl
            simp only [List.cons_append, loopRun, happ, h2, evOutcomes_cons_fetch,
              evSucc_cons_fetch]
        | interruptWait => simp [isFetchEvent] at hpre
        | interruptFetch => simp [isFetchEvent] at hpre
  exact ⟨hloop, by simp [scriptRun, hloop]⟩

/-- Witness for C7: five scheduled sources, interrupt during the sleep
before the third: the first two fetches happen (both succeed), the last
three never run, and `archive_images` runs 2 (in-loop) + 1 (final) times. -/
theorem C7_interrupt_handling_witness :
    loopRun [StepEvent.fetch true, StepEvent.fetch true, StepEvent.interruptWait,
        StepEvent.fetch true, StepEvent.fetch true] =
      Sum.inr ([true, true], 2) ∧
    scriptRun [StepEvent.fetch true, StepEvent.fetch true, StepEvent.interruptWait,
        StepEvent.fetch true, StepEvent.fetch true] = ([true, true], 2 + 1) :=
  C7_interrupt_handling [StepEvent.fetch true, StepEvent.fetch true]
    [StepEvent.fetch true, StepEvent.fetch true] StepEvent.interruptWait
    (by decide) (by decide)

/-- C8 (counterexample): when the dated backup directory already exists,
`os.makedirs` (called without `exist_ok`) raises `FileExistsError`, the
catch-all handler logs it, and **no** files are moved, although the working
directory is non-empty.  This refutes "whether or not the dated backup
directory already exists, moves every file". -/
theorem C8_counterexample :
    archive_images ⟨true, false, ["a.png"], fun _ => false⟩ = Except.ok [] ∧
    (["a.png"] : List String) ≠ [] := by
  exact ⟨by decide, by decide⟩

/-- C8 (amended): `archive_images` never propagates an exception; when the
dated backup directory does **not** already exist, directory creation
succeeds and every individual move succeeds, it moves every file of the
working directory (in order).  Any failure — including the `FileExistsError`
raised when the directory already exists — is caught and logged, aborting
the remaining moves. -/
theorem C8_archive_behaviour (env : ArchEnv) :
    (∃ m, archive_images env = Except.ok m) ∧
    (env.backupDirExists = false → env.mkdirOtherFail = false →
      env.files.all (fun f => !env.moveFail f) = true →
      archive_images env = Except.ok env.files) := by
  constructor
  · unfold archive_images
    rcases hb : archiveBody env with ⟨m, oe⟩
    cases oe <;> exact ⟨m, rfl⟩
  · intro h1 h2 h3
    unfold archive_images archiveBody
    rw [h1, h2]
    simp only [Bool.false_eq_true, if_false]
    rw [moveLoop_all_ok env.moveFail env.files h3]
    rfl

/-- Witness for C8 (amended): fresh directory, two files, all moves
succeed. -/
theorem C8_archive_behaviour_witness :
    (∃ m, archive_images ⟨false, false, ["a.png", "b.png"], fun _ => false⟩ =
        Except.ok m) ∧
    ((false : Bool) = false → (false : Bool) = false →
      (["a.png", "b.png"] : List String).all (fun f => !(fun _ : String => false) f) = true →
      archive_images ⟨false, false, ["a.png", "b.png"], fun _ => false⟩ =
        Except.ok ["a.png", "b.png"]) :=
  C8_archive_behaviour ⟨false, false, ["a.png", "b.png"], fun _ => false⟩

/-- C9 (counterexample): the display form is indeed `"1000-cam"`, but the
default output path concatenates the directory default
`"images/current_downloads"` and the display form with **no** separator, so
the file is `images/current_downloads1000-cam.png` — not
`images/1000-cam.png` as the claim states. -/
theorem C9_counterexample :
    CloudSource.str ⟨"cam", "u", (0, 0, 0, 0), "10:00", none⟩ = "1000-cam" ∧
    defaultImagePath ⟨"cam", "u", (0, 0, 0, 0), "10:00", none⟩ =
      "images/current_downloads1000-cam.png" ∧
    defaultImagePath ⟨"cam", "u", (0, 0, 0, 0), "10:00", none⟩ ≠
      "images/1000-cam.png" := by
  exact ⟨by decide, by decide, by decide⟩

/-- C9 (amended): the display form is the trigger time with colons removed,
a hyphen, and the name; with no explicit image name, `get_image` operates on
the path `"images/current_downloads" ++ display ++ ".png"` — a file named
`current_downloads<HHMM>-<name>.png` inside `images/`, since no separator is
inserted after the directory default. -/
theorem C9_default_path (src : CloudSource) (env : GIEnv) (res : GIResult)
    (h : get_image src none env = Except.ok res) :
    CloudSource.str src = removeColons src.time ++ "-" ++ src.name ∧
    res.pathUsed =
      "images/current_downloads" ++ (removeColons src.time ++ "-" ++ src.name) ++ ".png" := by
  refine ⟨rfl, ?_⟩
  rw [get_image_eq] at h
  cases h
  rfl

/-- Witness for C9 (amended): concrete source and environment. -/
theorem C9_default_path_witness :
    CloudSource.str ⟨"cam", "u", (0, 0, 0, 0), "10:00", none⟩ =
      removeColons "10:00" ++ "-" ++ "cam" ∧
    (⟨true, true, "images/current_downloads1000-cam.png"⟩ : GIResult).pathUsed =
      "images/current_downloads" ++ (removeColons "10:00" ++ "-" ++ "cam") ++ ".png" :=
  C9_default_path ⟨"cam", "u", (0, 0, 0, 0), "10:00", none⟩
    ⟨false, RemoveOutcome.ok, none, false, none, RemoveOutcome.ok⟩
    ⟨true, true, "images/current_downloads1000-cam.png"⟩ (by decide)

/-- C10: the boolean returned by `delete_file` is ignored at every call site
of `get_image`: the returned result is unchanged under arbitrary outcomes of
both `os.remove` calls, and it equals `True` iff neither the download nor
the crop block raised — in particular a failed pre-download deletion does
not abort the pipeline, and a failure path returns `False` whether or not
its cleanup deletion succeeded. -/
theorem C10_delete_result_ignored (src : CloudSource) (imageName : Option String)
    (env : GIEnv) (r1 r2 r1' r2' : RemoveOutcome) :
    (get_image src imageName { env with remove1 := r1, remove2 := r2 }).map GIResult.ret =
      (get_image src imageName { env with remove1 := r1', remove2 := r2' }).map GIResult.ret ∧
    (get_image src imageName env).map GIResult.ret =
      Except.ok (env.downloadError.isNone && env.cropError.isNone) := by
  rw [get_image_eq, get_image_eq, get_image_eq]
  exact ⟨rfl, rfl⟩

end LCS
